import Mathlib

/-!
Verification of the chtodoist task-management application.

The development shallowly embeds the Python sources:
* `tasks/models.py` — the record types and `Notification.mark_as_read`;
* `tasks/todoist_client.py` — the request body built by `TodoistClient.create_task`;
* `tasks/views.py` — `autocomplete_create`, `watcher_add`, `template_generate`;
* `tasks/management/commands/run_scheduled_tasks.py` — the scheduled runner:
  `handle`, `auto_complete_tasks`, `generate_recurring_tasks`.

Timestamps are seconds since the Unix epoch, modelled as `Int`.  Each scan
invocation is parameterised by a single instant `now` (the Python code calls
`timezone.now()` several times inside one loop body; those calls are fractions
of a second apart and are modelled as the same instant).  Remote (Todoist API)
behaviour is a parameter `TodoistEnv`; a call either returns a value or raises,
modelled with `Except`.
-/

namespace Chtodoist

/-- A calendar date, as produced by `datetime.date()` / used by `strftime`. -/
structure Date where
  year : Int
  month : Nat
  day : Nat
deriving DecidableEq

/-- Days since 1970-01-01 for a civil date (proleptic Gregorian), the
arithmetic underlying Python `datetime` date handling. -/
def daysFromCivil (dt : Date) : Int :=
  let y : Int := dt.year - (if dt.month ≤ 2 then 1 else 0)
  let m : Int := dt.month
  let d : Int := dt.day
  let era := Int.fdiv y 400
  let yoe := y - era * 400
  let doy := Int.fdiv (153 * (m + (if 2 < m then -3 else 9)) + 2) 5 + d - 1
  let doe := yoe * 365 + Int.fdiv yoe 4 - Int.fdiv yoe 100 + doy
  era * 146097 + doe - 719468

/-- Civil date from days since 1970-01-01 (inverse of `daysFromCivil`). -/
def civilFromDays (z0 : Int) : Date :=
  let z := z0 + 719468
  let era := Int.fdiv z 146097
  let doe := z - era * 146097
  let yoe := Int.fdiv (doe - Int.fdiv doe 1460 + Int.fdiv doe 36524 - Int.fdiv doe 146096) 365
  let y := yoe + era * 400
  let doy := doe - (365 * yoe + Int.fdiv yoe 4 - Int.fdiv yoe 100)
  let mp := Int.fdiv (5 * doy + 2) 153
  let d := doy - Int.fdiv (153 * mp + 2) 5 + 1
  let m := if mp < 10 then mp + 3 else mp - 9
  { year := y + (if m ≤ 2 then 1 else 0), month := m.toNat, day := d.toNat }

/-- The calendar date of a timestamp (UTC), as `datetime.date()` returns. -/
def dateOfTimestamp (t : Int) : Date :=
  civilFromDays (Int.fdiv t 86400)

/-- `strftime` `%d` / `%m`: zero-padded two-digit field. -/
def pad2 (n : Nat) : String :=
  if n < 10 then "0" ++ toString n else toString n

/-- `strftime` `%Y`: the year with century. -/
def yearStr (y : Int) : String :=
  toString y

/-- `strftime` `%B`: full month name. -/
def monthName : Nat → String
  | 1 => "January"
  | 2 => "February"
  | 3 => "March"
  | 4 => "April"
  | 5 => "May"
  | 6 => "June"
  | 7 => "July"
  | 8 => "August"
  | 9 => "September"
  | 10 => "October"
  | 11 => "November"
  | 12 => "December"
  | _ => ""

/-- `strftime('%Y-%m-%d')`. -/
def fmtYmd (d : Date) : String :=
  yearStr d.year ++ "-" ++ pad2 d.month ++ "-" ++ pad2 d.day

/-- The opening brace character. -/
def lbrace : Char := Char.ofNat 123

/-- The closing brace character. -/
def rbrace : Char := Char.ofNat 125

/-- The keyword substitutions supplied at every `.format(...)` call site of the
repository: `date`, `month`, `day`, `year` (command lines 155-169, views
lines 186-198).  Any other key raises `KeyError`, modelled as `none`. -/
def substKey (key : List Char) (d : Date) : Option String :=
  if key = "date".data then some (fmtYmd d)
  else if key = "month".data then some (monthName d.month)
  else if key = "day".data then some (pad2 d.day)
  else if key = "year".data then some (yearStr d.year)
  else none

/-- Scanner state for `str.format`: in a literal run, or inside a
replacement field accumulating the key. -/
inductive RenderMode where
  | lit : RenderMode
  | key : List Char → RenderMode

/-- Left-to-right scan of a Python format string: `\x7b\x7b` and `\x7d\x7d`
are literal braces, `\x7bkey\x7d` is replaced via `substKey`, a stray brace
or unknown key raises (`none`). -/
def renderAux (d : Date) : RenderMode → List Char → Option (List Char)
  | .lit, [] => some []
  | .lit, c :: cs =>
    if c = lbrace then
      match cs with
      | [] => none
      | c2 :: cs2 =>
        if c2 = lbrace then (renderAux d .lit cs2).map (fun r => lbrace :: r)
        else renderAux d (.key []) (c2 :: cs2)
    else if c = rbrace then
      match cs with
      | [] => none
      | c2 :: cs2 =>
        if c2 = rbrace then (renderAux d .lit cs2).map (fun r => rbrace :: r)
        else none
    else (renderAux d .lit cs).map (fun r => c :: r)
  | .key _, [] => none
  | .key acc, c :: cs =>
    if c = rbrace then
      match substKey acc d with
      | some v => (renderAux d .lit cs).map (fun r => v.data ++ r)
      | none => none
    else renderAux d (.key (acc ++ [c])) cs

/-- `template.format(date=..., month=..., day=..., year=...)` for a computed
due date, as called in `generate_recurring_tasks` and `template_generate`. -/
def renderTemplate (t : String) (d : Date) : Option String :=
  (renderAux d RenderMode.lit t.data).map (fun l => String.mk l)

example : daysFromCivil { year := 1970, month := 1, day := 1 } = 0 := by decide

example : civilFromDays 19797 = { year := 2024, month := 3, day := 15 } := by decide

example : daysFromCivil { year := 2024, month := 3, day := 15 } = 19797 := by decide

example :
    renderTemplate "Report - {date}" { year := 2024, month := 3, day := 15 }
      = some "Report - 2024-03-15" := by decide

/-! ## Record types (`tasks/models.py`)

Users are identified by their username string. -/

/-- `models.Notification` (the fields `created_at` and the FK id are not
needed by any claim and are omitted; `user` is the username). -/
structure Notification where
  user : String
  notification_type : String
  title : String
  message : String
  todoist_task_id : String
  is_read : Bool
  read_at : Option Int
deriving DecidableEq

/-- `Notification.mark_as_read` (models.py lines 221-226): only an unread
notification is stamped; `now` is the value of `timezone.now()` at the call. -/
def markAsRead (now : Int) (n : Notification) : Notification :=
  if !n.is_read then { n with is_read := true, read_at := some now } else n

/-- `models.TaskWatcher`. -/
structure TaskWatcher where
  todoist_task_id : String
  task_content : String
  watcher : String
  added_by : String
  notify_on_update : Bool
  notify_on_complete : Bool
  notify_on_overdue : Bool
deriving DecidableEq

/-- `models.AutoCompleteRule`. -/
structure AutoCompleteRule where
  todoist_task_id : String
  task_content : String
  complete_after_hours : Int
  is_active : Bool
  created_by : String
  completed_at : Option Int
deriving DecidableEq

/-- `models.TaskTemplate.FREQUENCY_CHOICES`. -/
inductive Frequency where
  | daily
  | weekly
  | biweekly
  | monthly
  | yearly
deriving DecidableEq

/-- `models.TaskTemplate`; `id` is the database primary key. -/
structure TaskTemplate where
  id : Nat
  name : String
  content_template : String
  description_template : String
  project_id : String
  frequency : Frequency
  priority : Nat
  labels : String
  auto_complete : Bool
  is_active : Bool
  created_by : String
  last_generated : Option Int
deriving DecidableEq

/-- `TaskTemplate.get_labels_list` (models.py lines 80-84). -/
def getLabelsList (tp : TaskTemplate) : List String :=
  if tp.labels ≠ "" then (tp.labels.splitOn ",").map (fun l => l.trim) else []

/-- `models.GeneratedTask`; `template` is the template's primary key. -/
structure GeneratedTask where
  template : Nat
  todoist_task_id : String
  task_content : String
  due_date : Date
  is_completed : Bool
deriving DecidableEq

/-! ## Todoist client (`tasks/todoist_client.py`) -/

/-- The JSON body assembled by `TodoistClient.create_task` (lines 127-143).
A field of value `none` is absent from the body; `content` is always
present. -/
structure CreateTaskBody where
  content : String
  description : Option String
  project_id : Option String
  due_string : Option String
  due_date : Option String
  priority : Option Nat
  labels : Option (List String)
deriving DecidableEq

/-- Python truthiness of an optional string argument (`None` and `""` are
falsy). -/
def truthyStr : Option String → Bool
  | none => false
  | some s => s ≠ ""

/-- Python truthiness of an optional list argument (`None` and `[]` are
falsy). -/
def truthyList : Option (List String) → Bool
  | none => false
  | some l => !l.isEmpty

/-- `TodoistClient.create_task` (todoist_client.py lines 100-146): the body
sent to `POST /tasks`.  `description`, `project_id` and `labels` are added
only when truthy; `due_string` wins over `due_date`; `priority` is added
only when greater than 1. -/
def create_task (content : String) (description : Option String)
    (project_id : Option String) (due_string : Option String)
    (due_date : Option String) (priority : Nat)
    (labels : Option (List String)) : CreateTaskBody :=
  { content := content
    description := if truthyStr description then description else none
    project_id := if truthyStr project_id then project_id else none
    due_string := if truthyStr due_string then due_string else none
    due_date :=
      if truthyStr due_string then none
      else if truthyStr due_date then due_date else none
    priority := if 1 < priority then some priority else none
    labels := if truthyList labels then labels else none }

/-! ## Web views (`tasks/views.py`) -/

/-- `views.autocomplete_create` (lines 254-280), acting on the table of
auto-complete rules.  `get_or_create` keys on the unique `todoist_task_id`;
when the row already exists the view sets `is_active = True` and saves. -/
def autocomplete_create (rules : List AutoCompleteRule) (task_id : String)
    (task_content : String) (hours : Int) (user : String) :
    List AutoCompleteRule :=
  match rules.find? (fun r => r.todoist_task_id == task_id) with
  | none =>
      rules ++ [{ todoist_task_id := task_id, task_content := task_content,
                  complete_after_hours := hours, is_active := true,
                  created_by := user, completed_at := none }]
  | some _ =>
      rules.map (fun r =>
        if r.todoist_task_id == task_id then { r with is_active := true } else r)

/-- `views.watcher_add` (lines 287-324), acting on the watcher and
notification tables.  `get_or_create` keys on the unique
(`todoist_task_id`, `watcher`) pair; only a newly created pair produces a
`watcher_added` notification. -/
def watcher_add (watchers : List TaskWatcher) (notifs : List Notification)
    (task_id : String) (task_content : String) (watcher : String)
    (added_by : String) : List TaskWatcher × List Notification :=
  if watchers.any (fun w => w.todoist_task_id == task_id && w.watcher == watcher) then
    (watchers, notifs)
  else
    (watchers ++ [{ todoist_task_id := task_id, task_content := task_content,
                    watcher := watcher, added_by := added_by,
                    notify_on_update := true, notify_on_complete := true,
                    notify_on_overdue := true }],
     notifs ++ [{ user := watcher, notification_type := "watcher_added",
                  title := "You were added as a watcher",
                  message := added_by ++ " added you as a watcher to: " ++ task_content,
                  todoist_task_id := task_id, is_read := false, read_at := none }])

/-! ## Scheduled runner (`tasks/management/commands/run_scheduled_tasks.py`) -/

/-- The `due.date` string of a remote task, as classified by the command
(lines 69-73): a date-time form (contains a `T`, parsed by
`datetime.fromisoformat` to a timestamp), a date-only form (parsed by
`strptime('%Y-%m-%d')` and made timezone-aware, i.e. midnight of that day),
or an unparseable string (parsing raises). -/
inductive DueString where
  | dateOnly : Date → DueString
  | dateTime : Int → DueString
  | malformed : String → DueString
deriving DecidableEq

/-- Parse a due string to a timestamp (lines 69-73); raises on a malformed
string. -/
def parseDue : DueString → Except String Int
  | .dateOnly d => .ok (86400 * daysFromCivil d)
  | .dateTime t => .ok t
  | .malformed s => .error s

/-- The part of a remote task the command reads: its optional due field. -/
structure RemoteTask where
  due : Option DueString
deriving DecidableEq

/-- Behaviour of the Todoist API during one run: each call either returns
(`ok`) or raises a transport error (`error`).  `create` returns the new
task's id. -/
structure TodoistEnv where
  fetch : String → Except String RemoteTask
  close : String → Except String Unit
  create : CreateTaskBody → Except String String

/-- The two phases of the command. -/
inductive Phase where
  | autoComplete
  | generate
deriving DecidableEq

/-- State threaded through one command run: the database tables, the log of
remote calls issued, the success counters, and bookkeeping that records the
loop iterations entered (`acAttempted`, `genAttempted`: one entry per
iteration of the corresponding `for` loop) and the exceptions caught and
logged (`acErrors`, `genErrors`).  `phases` records scan entry, one entry
per phase banner written to stdout. -/
structure RunState where
  rules : List AutoCompleteRule
  templates : List TaskTemplate
  generated : List GeneratedTask
  closeCalls : List String
  createCalls : List CreateTaskBody
  completedCount : Nat
  generatedCount : Nat
  acAttempted : List String
  genAttempted : List Nat
  acErrors : List String
  genErrors : List String
  phases : List Phase
deriving DecidableEq

/-- The queryset of `auto_complete_tasks` (lines 52-55): active rules whose
`completed_at` is null. -/
def activeRules (rs : List AutoCompleteRule) : List AutoCompleteRule :=
  rs.filter (fun r => r.is_active && r.completed_at.isNone)

/-- One iteration of the `auto_complete_tasks` loop (lines 59-102) for a
given rule.  Every exception raised in the body — API error on fetch or
close, missing `due`, malformed due string — is caught and logged
(`acErrors`); the iteration itself is always recorded in `acAttempted`. -/
def autoCompleteStep (env : TodoistEnv) (now : Int) (st : RunState)
    (rule : AutoCompleteRule) : RunState :=
  let st1 := { st with acAttempted := st.acAttempted ++ [rule.todoist_task_id] }
  match env.fetch rule.todoist_task_id with
  | .error e => { st1 with acErrors := st1.acErrors ++ [e] }
  | .ok task =>
    match task.due with
    | none => st1
    | some due =>
      match parseDue due with
      | .error e => { st1 with acErrors := st1.acErrors ++ [e] }
      | .ok dueTs =>
        let deadline := dueTs + 3600 * rule.complete_after_hours
        if deadline ≤ now then
          let st2 := { st1 with closeCalls := st1.closeCalls ++ [rule.todoist_task_id] }
          match env.close rule.todoist_task_id with
          | .error e => { st2 with acErrors := st2.acErrors ++ [e] }
          | .ok _ =>
            { st2 with
              rules := st2.rules.map (fun r =>
                if r.todoist_task_id == rule.todoist_task_id then
                  { r with completed_at := some now, is_active := false }
                else r)
              generated := st2.generated.map (fun g =>
                if g.todoist_task_id == rule.todoist_task_id then
                  { g with is_completed := true }
                else g)
              completedCount := st2.completedCount + 1 }
        else st1

/-- `Command.auto_complete_tasks` (lines 47-106). -/
def autoCompleteScan (env : TodoistEnv) (now : Int) (st : RunState) : RunState :=
  let st0 := { st with phases := st.phases ++ [Phase.autoComplete] }
  (activeRules st0.rules).foldl (autoCompleteStep env now) st0

/-- The fixed cadence offsets in seconds (lines 130-139 and 143-152):
daily = 1 day, weekly = 7 days, biweekly = 14 days, monthly = 30 days,
yearly = 365 days — literal day counts, not calendar arithmetic. -/
def cadenceOffset : Frequency → Int
  | .daily => 86400
  | .weekly => 7 * 86400
  | .biweekly => 14 * 86400
  | .monthly => 30 * 86400
  | .yearly => 365 * 86400

/-- The eligibility test of `generate_recurring_tasks` (lines 120-139):
never generated before, or enough time elapsed for the template's
frequency. -/
def shouldGenerate (now : Int) (tp : TaskTemplate) : Bool :=
  match tp.last_generated with
  | none => true
  | some lg => cadenceOffset tp.frequency ≤ now - lg

/-- The `task_description` computation (lines 162-169): `None` when the
description template is blank, otherwise the rendered description; the
outer `none` is a rendering exception. -/
def renderDescription (tp : TaskTemplate) (d : Date) : Option (Option String) :=
  if tp.description_template ≠ "" then (renderTemplate tp.description_template d).map some
  else some none

/-- One iteration of the `generate_recurring_tasks` loop (lines 117-211)
for a given template.  Exceptions (rendering failure, API error on create)
are caught and logged (`genErrors`); the iteration is always recorded in
`genAttempted`. -/
def generateStep (env : TodoistEnv) (now : Int) (st : RunState)
    (tp : TaskTemplate) : RunState :=
  let st1 := { st with genAttempted := st.genAttempted ++ [tp.id] }
  if shouldGenerate now tp then
    let due_date := now + cadenceOffset tp.frequency
    let d := dateOfTimestamp due_date
    match renderTemplate tp.content_template d with
    | none => { st1 with genErrors := st1.genErrors ++ [toString tp.id] }
    | some task_content =>
      match renderDescription tp d with
      | none => { st1 with genErrors := st1.genErrors ++ [toString tp.id] }
      | some task_description =>
        let body := create_task task_content task_description
          (if tp.project_id = "" then none else some tp.project_id)
          none (some (fmtYmd d)) tp.priority (some (getLabelsList tp))
        let st2 := { st1 with createCalls := st1.createCalls ++ [body] }
        match env.create body with
        | .error e => { st2 with genErrors := st2.genErrors ++ [e] }
        | .ok task_id =>
          { st2 with
            generated := st2.generated ++
              [{ template := tp.id, todoist_task_id := task_id,
                 task_content := task_content, due_date := d,
                 is_completed := false }]
            rules :=
              if tp.auto_complete then
                st2.rules ++ [{ todoist_task_id := task_id,
                                task_content := task_content,
                                complete_after_hours := 0, is_active := true,
                                created_by := tp.created_by, completed_at := none }]
              else st2.rules
            templates := st2.templates.map (fun t =>
              if t.id == tp.id then { t with last_generated := some now } else t)
            generatedCount := st2.generatedCount + 1 }
  else st1

/-- `Command.generate_recurring_tasks` (lines 108-215); the queryset is the
active templates (line 113). -/
def generateScan (env : TodoistEnv) (now : Int) (st : RunState) : RunState :=
  let st0 := { st with phases := st.phases ++ [Phase.generate] }
  (st0.templates.filter (fun tp => tp.is_active)).foldl (generateStep env now) st0

/-- The two command-line flags of the command (lines 22-32). -/
structure CommandFlags where
  auto_complete_only : Bool
  generate_only : Bool
deriving DecidableEq

/-- `Command.handle` (lines 34-45): auto-complete unless `--generate-only`,
then generation unless `--auto-complete-only`. -/
def handle (env : TodoistEnv) (now : Int) (flags : CommandFlags)
    (st : RunState) : RunState :=
  let st1 := if !flags.generate_only then autoCompleteScan env now st else st
  if !flags.auto_complete_only then generateScan env now st1 else st1

/-! ## Observation helpers and generic lemmas -/

/-- The rule row with a given task id (the unique-key lookup). -/
def findRule (t : String) (rs : List AutoCompleteRule) : Option AutoCompleteRule :=
  rs.find? (fun r => r.todoist_task_id == t)

/-- The template row with a given primary key. -/
def findTemplate (i : Nat) (ts : List TaskTemplate) : Option TaskTemplate :=
  ts.find? (fun tp => tp.id == i)

/-- How many times a task id occurs in a list of issued close calls. -/
def closeCount (t : String) (l : List String) : Nat :=
  (l.filter (fun s => s == t)).length

/-- How many `GeneratedTask` rows a template has. -/
def rowsFor (i : Nat) (gs : List GeneratedTask) : Nat :=
  (gs.filter (fun g => g.template == i)).length

theorem closeCount_append (t : String) (l1 l2 : List String) :
    closeCount t (l1 ++ l2) = closeCount t l1 + closeCount t l2 := by
  simp [closeCount, List.filter_append]

theorem closeCount_single_self (t : String) : closeCount t [t] = 1 := by
  simp [closeCount]

theorem closeCount_single_ne (t x : String) (h : x ≠ t) : closeCount t [x] = 0 := by
  simp [closeCount, h]

theorem rowsFor_append (i : Nat) (l1 l2 : List GeneratedTask) :
    rowsFor i (l1 ++ l2) = rowsFor i l1 + rowsFor i l2 := by
  simp [rowsFor, List.filter_append]

theorem foldl_obs_eq {σ α β : Type} (f : σ → α → σ) (obs : σ → β) :
    ∀ (l : List α) (s : σ), (∀ s' a, a ∈ l → obs (f s' a) = obs s') →
      obs (l.foldl f s) = obs s
  | [], _, _ => rfl
  | a :: as, s, h => by
    rw [List.foldl_cons,
      foldl_obs_eq f obs as (f s a) (fun s' x hx => h s' x (List.mem_cons_of_mem a hx)),
      h s a (List.mem_cons_self a as)]

theorem foldl_pred {σ α : Type} (f : σ → α → σ) (P : σ → Prop) :
    ∀ (l : List α) (s : σ), (∀ s' a, a ∈ l → P s' → P (f s' a)) → P s →
      P (l.foldl f s)
  | [], _, _, hs => hs
  | a :: as, s, h, hs => by
    rw [List.foldl_cons]
    exact foldl_pred f P as (f s a)
      (fun s' x hx => h s' x (List.mem_cons_of_mem a hx))
      (h s a (List.mem_cons_self a as) hs)

theorem foldl_emit {σ α β : Type} (f : σ → α → σ) (obs : σ → List β) (k : α → β)
    (hstep : ∀ s' a, obs (f s' a) = obs s' ++ [k a]) :
    ∀ (l : List α) (s : σ), obs (l.foldl f s) = obs s ++ l.map k
  | [], s => by simp
  | a :: as, s => by
    rw [List.foldl_cons, foldl_emit f obs k hstep as (f s a), hstep s a]
    simp

theorem foldl_mono_app {σ α β : Type} (f : σ → α → σ) (obs : σ → List β)
    (hstep : ∀ s' a, ∃ tl, obs (f s' a) = obs s' ++ tl) :
    ∀ (l : List α) (s : σ), ∃ tl, obs (l.foldl f s) = obs s ++ tl
  | [], s => ⟨[], by simp⟩
  | a :: as, s => by
    rw [List.foldl_cons]
    obtain ⟨t1, ht1⟩ := hstep s a
    obtain ⟨t2, ht2⟩ := foldl_mono_app f obs hstep as (f s a)
    exact ⟨t1 ++ t2, by rw [ht2, ht1, List.append_assoc]⟩

theorem find?_map_comm {α : Type} (f : α → α) (p : α → Bool)
    (hp : ∀ x, p (f x) = p x) :
    ∀ l : List α, (l.map f).find? p = (l.find? p).map f
  | [] => rfl
  | a :: as => by
    simp only [List.map_cons, List.find?]
    rw [hp a]
    cases hpa : p a with
    | false => exact find?_map_comm f p hp as
    | true => rfl

theorem find?_map_fix {α : Type} (f : α → α) (p : α → Bool) (l : List α)
    (hp : ∀ x, p (f x) = p x) (hfix : ∀ x, p x = true → f x = x) :
    (l.map f).find? p = l.find? p := by
  rw [find?_map_comm f p hp l]
  cases hf : l.find? p with
  | none => rfl
  | some x => simp [hfix x (List.find?_some hf)]

theorem nodup_key_inj {α β : Type} (key : α → β) :
    ∀ l : List α, (l.map key).Nodup →
      ∀ {x y : α}, x ∈ l → y ∈ l → key x = key y → x = y
  | [], _, _, _, hx, _, _ => absurd hx (List.not_mem_nil _)
  | a :: as, hnd, x, y, hx, hy, hk => by
    rw [List.map_cons, List.nodup_cons] at hnd
    cases hx with
    | head =>
      cases hy with
      | head => rfl
      | tail _ hy' => exact absurd (hk ▸ List.mem_map_of_mem key hy') hnd.1
    | tail _ hx' =>
      cases hy with
      | head => exact absurd (hk ▸ List.mem_map_of_mem key hx') hnd.1
      | tail _ hy' => exact nodup_key_inj key as hnd.2 hx' hy' hk

theorem find?_nodup_mem {α β : Type} [BEq β] [LawfulBEq β] (key : α → β) :
    ∀ (l : List α) (r : α), r ∈ l → (l.map key).Nodup →
      l.find? (fun x => key x == key r) = some r
  | [], r, hmem, _ => absurd hmem (List.not_mem_nil r)
  | a :: as, r, hmem, hnd => by
    rw [List.map_cons, List.nodup_cons] at hnd
    simp only [List.find?]
    cases hmem with
    | head => simp
    | tail _ hmem' =>
      cases hak : (key a == key r) with
      | true =>
        exact absurd ((eq_of_beq hak) ▸ List.mem_map_of_mem key hmem') hnd.1
      | false => exact find?_nodup_mem key as r hmem' hnd.2

theorem nodup_split_keys {α β : Type} (key : α → β) (l1 l2 : List α) (r : α)
    (hnd : ((l1 ++ r :: l2).map key).Nodup) :
    (∀ x ∈ l1, key x ≠ key r) ∧ (∀ x ∈ l2, key x ≠ key r) := by
  constructor
  · intro x hx hk
    have hx' : x ∈ l1 ++ r :: l2 := List.mem_append_left _ hx
    have hr : r ∈ l1 ++ r :: l2 := List.mem_append_right _ (List.mem_cons_self r l2)
    have := nodup_key_inj key (l1 ++ r :: l2) hnd hx' hr hk
    subst this
    rw [List.map_append, List.map_cons] at hnd
    have hdisj := (List.nodup_append.mp hnd).2.2
    exact hdisj (List.mem_map_of_mem key hx) (List.mem_cons_self _ _)
  · intro x hx hk
    rw [List.map_append, List.map_cons] at hnd
    have hnd2 := (List.nodup_append.mp hnd).2.1
    rw [List.nodup_cons] at hnd2
    exact hnd2.1 (hk ▸ List.mem_map_of_mem key hx)

/-! ## Lemmas about one auto-complete iteration -/

/-- The update applied by the scan to the rule it just closed. -/
def closeRuleUpd (t : String) (now : Int) (x : AutoCompleteRule) : AutoCompleteRule :=
  if x.todoist_task_id == t then { x with completed_at := some now, is_active := false }
  else x

/-- The update applied by the scan to the generated-task rows of a closed
task. -/
def closeGenUpd (t : String) (g : GeneratedTask) : GeneratedTask :=
  if g.todoist_task_id == t then { g with is_completed := true } else g

theorem acStep_acAttempted (env : TodoistEnv) (now : Int) (st : RunState)
    (r : AutoCompleteRule) :
    (autoCompleteStep env now st r).acAttempted
      = st.acAttempted ++ [r.todoist_task_id] := by
  cases hf : env.fetch r.todoist_task_id with
  | error e => simp [autoCompleteStep, hf]
  | ok task =>
    cases hd : task.due with
    | none => simp [autoCompleteStep, hf, hd]
    | some due =>
      cases hp : parseDue due with
      | error e => simp [autoCompleteStep, hf, hd, hp]
      | ok dueTs =>
        by_cases hc : dueTs + 3600 * r.complete_after_hours ≤ now
        · cases hcl : env.close r.todoist_task_id with
          | error e => simp [autoCompleteStep, hf, hd, hp, hc, hcl]
          | ok u => simp [autoCompleteStep, hf, hd, hp, hc, hcl]
        · simp [autoCompleteStep, hf, hd, hp, hc]

theorem acStep_phases (env : TodoistEnv) (now : Int) (st : RunState)
    (r : AutoCompleteRule) :
    (autoCompleteStep env now st r).phases = st.phases := by
  cases hf : env.fetch r.todoist_task_id with
  | error e => simp [autoCompleteStep, hf]
  | ok task =>
    cases hd : task.due with
    | none => simp [autoCompleteStep, hf, hd]
    | some due =>
      cases hp : parseDue due with
      | error e => simp [autoCompleteStep, hf, hd, hp]
      | ok dueTs =>
        by_cases hc : dueTs + 3600 * r.complete_after_hours ≤ now
        · cases hcl : env.close r.todoist_task_id with
          | error e => simp [autoCompleteStep, hf, hd, hp, hc, hcl]
          | ok u => simp [autoCompleteStep, hf, hd, hp, hc, hcl]
        · simp [autoCompleteStep, hf, hd, hp, hc]

theorem acStep_acErrors_mono (env : TodoistEnv) (now : Int) (st : RunState)
    (r : AutoCompleteRule) :
    ∃ tl, (autoCompleteStep env now st r).acErrors = st.acErrors ++ tl := by
  cases hf : env.fetch r.todoist_task_id with
  | error e => exact ⟨[e], by simp [autoCompleteStep, hf]⟩
  | ok task =>
    cases hd : task.due with
    | none => exact ⟨[], by simp [autoCompleteStep, hf, hd]⟩
    | some due =>
      cases hp : parseDue due with
      | error e => exact ⟨[e], by simp [autoCompleteStep, hf, hd, hp]⟩
      | ok dueTs =>
        by_cases hc : dueTs + 3600 * r.complete_after_hours ≤ now
        · cases hcl : env.close r.todoist_task_id with
          | error e => exact ⟨[e], by simp [autoCompleteStep, hf, hd, hp, hc, hcl]⟩
          | ok u => exact ⟨[], by simp [autoCompleteStep, hf, hd, hp, hc, hcl]⟩
        · exact ⟨[], by simp [autoCompleteStep, hf, hd, hp, hc]⟩

theorem acStep_error_logged (env : TodoistEnv) (now : Int) (st : RunState)
    (r : AutoCompleteRule) (e : String)
    (hfetch : env.fetch r.todoist_task_id = .error e) :
    (autoCompleteStep env now st r).acErrors = st.acErrors ++ [e] := by
  simp [autoCompleteStep, hfetch]

theorem acStep_overdue (env : TodoistEnv) (now : Int) (st : RunState)
    (r : AutoCompleteRule) (task : RemoteTask) (due : DueString) (dueTs : Int)
    (hfetch : env.fetch r.todoist_task_id = .ok task)
    (hdue : task.due = some due) (hparse : parseDue due = .ok dueTs)
    (hover : dueTs + 3600 * r.complete_after_hours ≤ now)
    (hclose : env.close r.todoist_task_id = .ok ()) :
    autoCompleteStep env now st r =
      { st with
        acAttempted := st.acAttempted ++ [r.todoist_task_id]
        closeCalls := st.closeCalls ++ [r.todoist_task_id]
        rules := st.rules.map (closeRuleUpd r.todoist_task_id now)
        generated := st.generated.map (closeGenUpd r.todoist_task_id)
        completedCount := st.completedCount + 1 } := by
  unfold closeRuleUpd closeGenUpd
  simp only [autoCompleteStep, hfetch, hdue, hparse, hclose, if_pos hover]

theorem acStep_notdue (env : TodoistEnv) (now : Int) (st : RunState)
    (r : AutoCompleteRule) (task : RemoteTask) (due : DueString) (dueTs : Int)
    (hfetch : env.fetch r.todoist_task_id = .ok task)
    (hdue : task.due = some due) (hparse : parseDue due = .ok dueTs)
    (hlt : now < dueTs + 3600 * r.complete_after_hours) :
    autoCompleteStep env now st r =
      { st with acAttempted := st.acAttempted ++ [r.todoist_task_id] } := by
  simp only [autoCompleteStep, hfetch, hdue, hparse, if_neg (not_le.mpr hlt)]

theorem closeRuleUpd_id (t : String) (now : Int) (x : AutoCompleteRule) :
    (closeRuleUpd t now x).todoist_task_id = x.todoist_task_id := by
  unfold closeRuleUpd
  by_cases h : x.todoist_task_id == t <;> simp [h]

theorem closeGenUpd_id (t : String) (g : GeneratedTask) :
    (closeGenUpd t g).todoist_task_id = g.todoist_task_id := by
  unfold closeGenUpd
  by_cases h : g.todoist_task_id == t <;> simp [h]

theorem acStep_findRule_ne (env : TodoistEnv) (now : Int) (st : RunState)
    (r : AutoCompleteRule) (t : String) (h : r.todoist_task_id ≠ t) :
    findRule t (autoCompleteStep env now st r).rules = findRule t st.rules := by
  cases hf : env.fetch r.todoist_task_id with
  | error e => simp [autoCompleteStep, hf]
  | ok task =>
    cases hd : task.due with
    | none => simp [autoCompleteStep, hf, hd]
    | some due =>
      cases hp : parseDue due with
      | error e => simp [autoCompleteStep, hf, hd, hp]
      | ok dueTs =>
        by_cases hc : dueTs + 3600 * r.complete_after_hours ≤ now
        · cases hcl : env.close r.todoist_task_id with
          | error e => simp [autoCompleteStep, hf, hd, hp, hc, hcl]
          | ok u =>
            rw [acStep_overdue env now st r task due dueTs hf hd hp hc hcl]
            show findRule t (st.rules.map (closeRuleUpd r.todoist_task_id now)) = _
            unfold findRule
            refine find?_map_fix _ _ _ (fun x => by rw [closeRuleUpd_id]) ?_
            intro x hx
            have hxt : x.todoist_task_id = t := by simpa using hx
            simp [closeRuleUpd, hxt, Ne.symm h]
        · simp [autoCompleteStep, hf, hd, hp, hc]

theorem acStep_closeCount_ne (env : TodoistEnv) (now : Int) (st : RunState)
    (r : AutoCompleteRule) (t : String) (h : r.todoist_task_id ≠ t) :
    closeCount t (autoCompleteStep env now st r).closeCalls
      = closeCount t st.closeCalls := by
  cases hf : env.fetch r.todoist_task_id with
  | error e => simp [autoCompleteStep, hf]
  | ok task =>
    cases hd : task.due with
    | none => simp [autoCompleteStep, hf, hd]
    | some due =>
      cases hp : parseDue due with
      | error e => simp [autoCompleteStep, hf, hd, hp]
      | ok dueTs =>
        by_cases hc : dueTs + 3600 * r.complete_after_hours ≤ now
        · have habs : closeCount t (st.closeCalls ++ [r.todoist_task_id])
              = closeCount t st.closeCalls := by
            rw [closeCount_append, closeCount_single_ne t _ h, Nat.add_zero]
          cases hcl : env.close r.todoist_task_id with
          | error e =>
            simp only [autoCompleteStep, hf, hd, hp, if_pos hc, hcl]
            exact habs
          | ok u =>
            simp only [autoCompleteStep, hf, hd, hp, if_pos hc, hcl]
            exact habs
        · simp [autoCompleteStep, hf, hd, hp, hc]

theorem acStep_genCompleted (env : TodoistEnv) (now : Int) (st : RunState)
    (r : AutoCompleteRule) (t : String)
    (h : ∀ g ∈ st.generated, g.todoist_task_id = t → g.is_completed = true) :
    ∀ g ∈ (autoCompleteStep env now st r).generated,
      g.todoist_task_id = t → g.is_completed = true := by
  cases hf : env.fetch r.todoist_task_id with
  | error e => simpa [autoCompleteStep, hf] using h
  | ok task =>
    cases hd : task.due with
    | none => simpa [autoCompleteStep, hf, hd] using h
    | some due =>
      cases hp : parseDue due with
      | error e => simpa [autoCompleteStep, hf, hd, hp] using h
      | ok dueTs =>
        by_cases hc : dueTs + 3600 * r.complete_after_hours ≤ now
        · cases hcl : env.close r.todoist_task_id with
          | error e => simpa [autoCompleteStep, hf, hd, hp, hc, hcl] using h
          | ok u =>
            rw [acStep_overdue env now st r task due dueTs hf hd hp hc hcl]
            intro g hg hgt
            obtain ⟨g0, hg0, rfl⟩ := List.mem_map.mp hg
            by_cases hid : g0.todoist_task_id == r.todoist_task_id
            · simp [closeGenUpd, hid]
            · have hg0t : g0.todoist_task_id = t := by
                simpa [closeGenUpd, hid] using hgt
              simpa [closeGenUpd, hid] using h g0 hg0 hg0t
        · simpa [autoCompleteStep, hf, hd, hp, hc] using h

/-! ## Lemmas about one generation iteration -/

/-- The computed due date of a generated task (lines 143-152): `now` plus
the fixed cadence offset, as a calendar date. -/
def genDue (now : Int) (tp : TaskTemplate) : Date :=
  dateOfTimestamp (now + cadenceOffset tp.frequency)

/-- The body passed to `client.create_task` by the generation scan
(lines 172-179). -/
def genBody (now : Int) (tp : TaskTemplate) (content : String)
    (desc : Option String) : CreateTaskBody :=
  create_task content desc
    (if tp.project_id = "" then none else some tp.project_id)
    none (some (fmtYmd (genDue now tp))) tp.priority (some (getLabelsList tp))

/-- The update applied to the template that just generated (lines 198-200). -/
def genTemplateUpd (i : Nat) (now : Int) (t : TaskTemplate) : TaskTemplate :=
  if t.id == i then { t with last_generated := some now } else t

theorem genTemplateUpd_id (i : Nat) (now : Int) (t : TaskTemplate) :
    (genTemplateUpd i now t).id = t.id := by
  unfold genTemplateUpd
  by_cases h : t.id == i <;> simp [h]

theorem genStep_genAttempted (env : TodoistEnv) (now : Int) (st : RunState)
    (tp : TaskTemplate) :
    (generateStep env now st tp).genAttempted = st.genAttempted ++ [tp.id] := by
  cases hs : shouldGenerate now tp with
  | false => simp [generateStep, hs]
  | true =>
    cases hr : renderTemplate tp.content_template
        (dateOfTimestamp (now + cadenceOffset tp.frequency)) with
    | none => simp [generateStep, hs, hr]
    | some content =>
      cases hdsc : renderDescription tp
          (dateOfTimestamp (now + cadenceOffset tp.frequency)) with
      | none => simp [generateStep, hs, hr, hdsc]
      | some desc =>
        cases hcr : env.create (create_task content desc
            (if tp.project_id = "" then none else some tp.project_id)
            none (some (fmtYmd (dateOfTimestamp (now + cadenceOffset tp.frequency))))
            tp.priority (some (getLabelsList tp))) with
        | error e => simp [generateStep, hs, hr, hdsc, hcr]
        | ok tid => simp [generateStep, hs, hr, hdsc, hcr]

theorem genStep_phases (env : TodoistEnv) (now : Int) (st : RunState)
    (tp : TaskTemplate) :
    (generateStep env now st tp).phases = st.phases := by
  cases hs : shouldGenerate now tp with
  | false => simp [generateStep, hs]
  | true =>
    cases hr : renderTemplate tp.content_template
        (dateOfTimestamp (now + cadenceOffset tp.frequency)) with
    | none => simp [generateStep, hs, hr]
    | some content =>
      cases hdsc : renderDescription tp
          (dateOfTimestamp (now + cadenceOffset tp.frequency)) with
      | none => simp [generateStep, hs, hr, hdsc]
      | some desc =>
        cases hcr : env.create (create_task content desc
            (if tp.project_id = "" then none else some tp.project_id)
            none (some (fmtYmd (dateOfTimestamp (now + cadenceOffset tp.frequency))))
            tp.priority (some (getLabelsList tp))) with
        | error e => simp [generateStep, hs, hr, hdsc, hcr]
        | ok tid => simp [generateStep, hs, hr, hdsc, hcr]

theorem genStep_skip (env : TodoistEnv) (now : Int) (st : RunState)
    (tp : TaskTemplate) (hs : shouldGenerate now tp = false) :
    generateStep env now st tp
      = { st with genAttempted := st.genAttempted ++ [tp.id] } := by
  simp [generateStep, hs]

theorem genStep_success (env : TodoistEnv) (now : Int) (st : RunState)
    (tp : TaskTemplate) (content : String) (desc : Option String) (tid : String)
    (hs : shouldGenerate now tp = true)
    (hr : renderTemplate tp.content_template (genDue now tp) = some content)
    (hdsc : renderDescription tp (genDue now tp) = some desc)
    (hcr : env.create (genBody now tp content desc) = .ok tid) :
    generateStep env now st tp =
      { st with
        genAttempted := st.genAttempted ++ [tp.id]
        createCalls := st.createCalls ++ [genBody now tp content desc]
        generated := st.generated ++
          [{ template := tp.id, todoist_task_id := tid, task_content := content,
             due_date := genDue now tp, is_completed := false }]
        rules :=
          if tp.auto_complete then
            st.rules ++ [{ todoist_task_id := tid, task_content := content,
                           complete_after_hours := 0, is_active := true,
                           created_by := tp.created_by, completed_at := none }]
          else st.rules
        templates := st.templates.map (genTemplateUpd tp.id now)
        generatedCount := st.generatedCount + 1 } := by
  simp only [genDue, genBody] at hr hdsc hcr
  simp only [genBody, genDue]
  simp only [generateStep, hs, hr, hdsc, hcr, if_true]
  rfl

theorem genStep_findTemplate_ne (env : TodoistEnv) (now : Int) (st : RunState)
    (tp : TaskTemplate) (i : Nat) (h : tp.id ≠ i) :
    findTemplate i (generateStep env now st tp).templates
      = findTemplate i st.templates := by
  cases hs : shouldGenerate now tp with
  | false => simp [generateStep, hs]
  | true =>
    cases hr : renderTemplate tp.content_template
        (dateOfTimestamp (now + cadenceOffset tp.frequency)) with
    | none => simp [generateStep, hs, hr]
    | some content =>
      cases hdsc : renderDescription tp
          (dateOfTimestamp (now + cadenceOffset tp.frequency)) with
      | none => simp [generateStep, hs, hr, hdsc]
      | some desc =>
        cases hcr : env.create (create_task content desc
            (if tp.project_id = "" then none else some tp.project_id)
            none (some (fmtYmd (dateOfTimestamp (now + cadenceOffset tp.frequency))))
            tp.priority (some (getLabelsList tp))) with
        | error e => simp [generateStep, hs, hr, hdsc, hcr]
        | ok tid =>
          rw [genStep_success env now st tp content desc tid hs
            (by simp only [genDue]; exact hr) (by simp only [genDue]; exact hdsc)
            (by simp only [genBody, genDue]; exact hcr)]
          show findTemplate i (st.templates.map (genTemplateUpd tp.id now)) = _
          unfold findTemplate
          refine find?_map_fix _ _ _ (fun x => by rw [genTemplateUpd_id]) ?_
          intro x hx
          have hxt : x.id = i := by simpa using hx
          simp [genTemplateUpd, hxt, Ne.symm h]

theorem genStep_rowsFor_ne (env : TodoistEnv) (now : Int) (st : RunState)
    (tp : TaskTemplate) (i : Nat) (h : tp.id ≠ i) :
    rowsFor i (generateStep env now st tp).generated
      = rowsFor i st.generated := by
  cases hs : shouldGenerate now tp with
  | false => simp [generateStep, hs]
  | true =>
    cases hr : renderTemplate tp.content_template
        (dateOfTimestamp (now + cadenceOffset tp.frequency)) with
    | none => simp [generateStep, hs, hr]
    | some content =>
      cases hdsc : renderDescription tp
          (dateOfTimestamp (now + cadenceOffset tp.frequency)) with
      | none => simp [generateStep, hs, hr, hdsc]
      | some desc =>
        cases hcr : env.create (create_task content desc
            (if tp.project_id = "" then none else some tp.project_id)
            none (some (fmtYmd (dateOfTimestamp (now + cadenceOffset tp.frequency))))
            tp.priority (some (getLabelsList tp))) with
        | error e => simp [generateStep, hs, hr, hdsc, hcr]
        | ok tid =>
          rw [genStep_success env now st tp content desc tid hs
            (by simp only [genDue]; exact hr) (by simp only [genDue]; exact hdsc)
            (by simp only [genBody, genDue]; exact hcr)]
          show rowsFor i (st.generated ++ [_]) = _
          rw [rowsFor_append]
          simp [rowsFor, h]

theorem genStep_rules_ext (env : TodoistEnv) (now : Int) (st : RunState)
    (tp : TaskTemplate) :
    ∃ ext, (generateStep env now st tp).rules = st.rules ++ ext ∧
      ∀ x ∈ ext, x.completed_at = none := by
  cases hs : shouldGenerate now tp with
  | false => exact ⟨[], by simp [generateStep, hs], by simp⟩
  | true =>
    cases hr : renderTemplate tp.content_template
        (dateOfTimestamp (now + cadenceOffset tp.frequency)) with
    | none => exact ⟨[], by simp [generateStep, hs, hr], by simp⟩
    | some content =>
      cases hdsc : renderDescription tp
          (dateOfTimestamp (now + cadenceOffset tp.frequency)) with
      | none => exact ⟨[], by simp [generateStep, hs, hr, hdsc], by simp⟩
      | some desc =>
        cases hcr : env.create (create_task content desc
            (if tp.project_id = "" then none else some tp.project_id)
            none (some (fmtYmd (dateOfTimestamp (now + cadenceOffset tp.frequency))))
            tp.priority (some (getLabelsList tp))) with
        | error e => exact ⟨[], by simp [generateStep, hs, hr, hdsc, hcr], by simp⟩
        | ok tid =>
          by_cases ha : tp.auto_complete
          · refine ⟨[{ todoist_task_id := tid, task_content := content,
                       complete_after_hours := 0, is_active := true,
                       created_by := tp.created_by, completed_at := none }], ?_, ?_⟩
            · simp [generateStep, hs, hr, hdsc, hcr, ha]
            · intro x hx
              simp only [List.mem_singleton] at hx
              subst hx
              rfl
          · exact ⟨[], by simp [generateStep, hs, hr, hdsc, hcr, ha], by simp⟩

/-! ## Scan-level lemmas -/

theorem autoCompleteScan_phases (env : TodoistEnv) (now : Int) (st : RunState) :
    (autoCompleteScan env now st).phases = st.phases ++ [Phase.autoComplete] := by
  simp only [autoCompleteScan]
  rw [foldl_obs_eq (autoCompleteStep env now) (fun s => s.phases) _ _
    (fun s' a _ => acStep_phases env now s' a)]

theorem generateScan_phases (env : TodoistEnv) (now : Int) (st : RunState) :
    (generateScan env now st).phases = st.phases ++ [Phase.generate] := by
  simp only [generateScan]
  rw [foldl_obs_eq (generateStep env now) (fun s => s.phases) _ _
    (fun s' a _ => genStep_phases env now s' a)]

theorem autoCompleteScan_acAttempted (env : TodoistEnv) (now : Int) (st : RunState) :
    (autoCompleteScan env now st).acAttempted
      = st.acAttempted ++ (activeRules st.rules).map (fun r => r.todoist_task_id) := by
  simp only [autoCompleteScan]
  rw [foldl_emit (autoCompleteStep env now) (fun s => s.acAttempted)
    (fun r => r.todoist_task_id) (fun s' a => acStep_acAttempted env now s' a)]

theorem generateScan_genAttempted (env : TodoistEnv) (now : Int) (st : RunState) :
    (generateScan env now st).genAttempted
      = st.genAttempted ++ (st.templates.filter (fun tp => tp.is_active)).map (fun tp => tp.id) := by
  simp only [generateScan]
  rw [foldl_emit (generateStep env now) (fun s => s.genAttempted)
    (fun tp => tp.id) (fun s' a => genStep_genAttempted env now s' a)]

theorem autoCompleteScan_decomp (env : TodoistEnv) (now : Int) (st : RunState)
    (l1 l2 : List AutoCompleteRule) (r : AutoCompleteRule)
    (hsplit : activeRules st.rules = l1 ++ r :: l2) :
    autoCompleteScan env now st
      = l2.foldl (autoCompleteStep env now)
          (autoCompleteStep env now
            (l1.foldl (autoCompleteStep env now)
              { st with phases := st.phases ++ [Phase.autoComplete] }) r) := by
  simp only [autoCompleteScan]
  rw [show activeRules ({ st with phases := st.phases ++ [Phase.autoComplete] } : RunState).rules
      = l1 ++ r :: l2 from hsplit, List.foldl_append, List.foldl_cons]

theorem generateScan_decomp (env : TodoistEnv) (now : Int) (st : RunState)
    (l1 l2 : List TaskTemplate) (tp : TaskTemplate)
    (hsplit : st.templates.filter (fun x => x.is_active) = l1 ++ tp :: l2) :
    generateScan env now st
      = l2.foldl (generateStep env now)
          (generateStep env now
            (l1.foldl (generateStep env now)
              { st with phases := st.phases ++ [Phase.generate] }) tp) := by
  simp only [generateScan]
  rw [show ({ st with phases := st.phases ++ [Phase.generate] } : RunState).templates.filter
        (fun x => x.is_active)
      = l1 ++ tp :: l2 from hsplit, List.foldl_append, List.foldl_cons]

theorem autoCompleteScan_error_logged (env : TodoistEnv) (now : Int) (st : RunState)
    (r : AutoCompleteRule) (e : String)
    (hmem : r ∈ activeRules st.rules)
    (hfetch : env.fetch r.todoist_task_id = .error e) :
    e ∈ (autoCompleteScan env now st).acErrors := by
  obtain ⟨l1, l2, hsplit⟩ := List.append_of_mem hmem
  rw [autoCompleteScan_decomp env now st l1 l2 r hsplit]
  obtain ⟨tl, htl⟩ := foldl_mono_app (autoCompleteStep env now) (fun s => s.acErrors)
    (fun s' a => acStep_acErrors_mono env now s' a) l2
    (autoCompleteStep env now
      (l1.foldl (autoCompleteStep env now)
        { st with phases := st.phases ++ [Phase.autoComplete] }) r)
  rw [htl, acStep_error_logged env now _ r e hfetch]
  simp

/-! ## Claim theorems: the command entry point -/

/-- Claim C9: the two command-line flags select mutually exclusive modes:
with `--auto-complete-only` only the auto-complete phase runs, with
`--generate-only` only the generation phase runs, and with neither flag both
phases run in sequence, auto-complete first (`Command.handle`,
run_scheduled_tasks.py lines 34-45). -/
theorem handle_mode_flags (env : TodoistEnv) (now : Int) (st : RunState) :
    handle env now { auto_complete_only := true, generate_only := false } st
        = autoCompleteScan env now st ∧
    handle env now { auto_complete_only := false, generate_only := true } st
        = generateScan env now st ∧
    handle env now { auto_complete_only := false, generate_only := false } st
        = generateScan env now (autoCompleteScan env now st) ∧
    (handle env now { auto_complete_only := true, generate_only := false } st).phases
        = st.phases ++ [Phase.autoComplete] ∧
    (handle env now { auto_complete_only := false, generate_only := true } st).phases
        = st.phases ++ [Phase.generate] ∧
    (handle env now { auto_complete_only := false, generate_only := false } st).phases
        = st.phases ++ [Phase.autoComplete, Phase.generate] := by
  refine ⟨rfl, rfl, rfl, ?_, ?_, ?_⟩
  · show (autoCompleteScan env now st).phases = _
    exact autoCompleteScan_phases env now st
  · show (generateScan env now st).phases = _
    exact generateScan_phases env now st
  · show (generateScan env now (autoCompleteScan env now st)).phases = _
    rw [generateScan_phases, autoCompleteScan_phases, List.append_assoc]
    rfl

/-- Claim C10: passing both `--auto-complete-only` and `--generate-only`
makes `Command.handle` skip both phases: no scan runs and the state is
returned unchanged (run_scheduled_tasks.py lines 39-43). -/
theorem handle_both_flags_noop (env : TodoistEnv) (now : Int) (st : RunState) :
    handle env now { auto_complete_only := true, generate_only := true } st = st := rfl

/-! ## Claim theorems: the auto-complete scan -/

/-- Claim C1: in the auto-complete scan, an active rule with `completed_at`
unset whose remote task carries a due date (either form) is, when
`now >= due + complete_after_hours`, closed exactly once (one close call is
issued for its task id) and made terminal — `completed_at := now`,
`is_active := false`, and every `GeneratedTask` row with the same task id is
marked completed; a rule whose deadline has not passed is left entirely
unchanged and no close call is issued for it
(run_scheduled_tasks.py lines 59-96). -/
theorem auto_complete_scan_deadline (env : TodoistEnv) (now : Int) (st : RunState)
    (r : AutoCompleteRule) (task : RemoteTask) (due : DueString) (dueTs : Int)
    (hmem : r ∈ st.rules)
    (hnd : (st.rules.map (fun x => x.todoist_task_id)).Nodup)
    (hact : r.is_active = true) (hnc : r.completed_at = none)
    (hfetch : env.fetch r.todoist_task_id = .ok task)
    (hdue : task.due = some due)
    (hparse : parseDue due = .ok dueTs)
    (hclose : env.close r.todoist_task_id = .ok ()) :
    (dueTs + 3600 * r.complete_after_hours ≤ now →
      findRule r.todoist_task_id (autoCompleteScan env now st).rules
          = some { r with completed_at := some now, is_active := false } ∧
      closeCount r.todoist_task_id (autoCompleteScan env now st).closeCalls
          = closeCount r.todoist_task_id st.closeCalls + 1 ∧
      ∀ g ∈ (autoCompleteScan env now st).generated,
        g.todoist_task_id = r.todoist_task_id → g.is_completed = true) ∧
    (now < dueTs + 3600 * r.complete_after_hours →
      findRule r.todoist_task_id (autoCompleteScan env now st).rules = some r ∧
      closeCount r.todoist_task_id (autoCompleteScan env now st).closeCalls
          = closeCount r.todoist_task_id st.closeCalls) := by
  have hmemA : r ∈ activeRules st.rules :=
    List.mem_filter.mpr ⟨hmem, by simp [hact, hnc]⟩
  have hndA : ((activeRules st.rules).map (fun x => x.todoist_task_id)).Nodup :=
    hnd.sublist ((List.filter_sublist st.rules).map (fun x => x.todoist_task_id))
  obtain ⟨l1, l2, hsplit⟩ := List.append_of_mem hmemA
  have hkeys := nodup_split_keys (fun x => x.todoist_task_id) l1 l2 r (hsplit ▸ hndA)
  have hdecomp := autoCompleteScan_decomp env now st l1 l2 r hsplit
  set sA := l1.foldl (autoCompleteStep env now)
    { st with phases := st.phases ++ [Phase.autoComplete] } with hsA
  have hA_find : findRule r.todoist_task_id sA.rules = some r := by
    rw [hsA, foldl_obs_eq (autoCompleteStep env now)
      (fun s => findRule r.todoist_task_id s.rules) l1 _
      (fun s' a ha => acStep_findRule_ne env now s' a _ (hkeys.1 a ha))]
    exact find?_nodup_mem (fun x => x.todoist_task_id) st.rules r hmem hnd
  have hA_count : closeCount r.todoist_task_id sA.closeCalls
      = closeCount r.todoist_task_id st.closeCalls := by
    rw [hsA, foldl_obs_eq (autoCompleteStep env now)
      (fun s => closeCount r.todoist_task_id s.closeCalls) l1 _
      (fun s' a ha => acStep_closeCount_ne env now s' a _ (hkeys.1 a ha))]
  constructor
  · intro hover
    have hB := acStep_overdue env now sA r task due dueTs hfetch hdue hparse hover hclose
    rw [hdecomp, hB]
    refine ⟨?_, ?_, ?_⟩
    · rw [foldl_obs_eq (autoCompleteStep env now)
        (fun s => findRule r.todoist_task_id s.rules) l2 _
        (fun s' a ha => acStep_findRule_ne env now s' a _ (hkeys.2 a ha))]
      show findRule r.todoist_task_id
        (sA.rules.map (closeRuleUpd r.todoist_task_id now)) = _
      unfold findRule
      rw [find?_map_comm (closeRuleUpd r.todoist_task_id now) _
        (fun x => by rw [closeRuleUpd_id])]
      rw [show sA.rules.find? (fun x => x.todoist_task_id == r.todoist_task_id)
        = some r from hA_find]
      simp [closeRuleUpd]
    · rw [foldl_obs_eq (autoCompleteStep env now)
        (fun s => closeCount r.todoist_task_id s.closeCalls) l2 _
        (fun s' a ha => acStep_closeCount_ne env now s' a _ (hkeys.2 a ha))]
      show closeCount r.todoist_task_id
        (sA.closeCalls ++ [r.todoist_task_id]) = _
      rw [closeCount_append, closeCount_single_self, hA_count]
    · refine foldl_pred (autoCompleteStep env now)
        (fun s => ∀ g ∈ s.generated,
          g.todoist_task_id = r.todoist_task_id → g.is_completed = true) l2 _
        (fun s' a _ h => acStep_genCompleted env now s' a _ h) ?_
      intro g hg hgt
      have hg' : g ∈ sA.generated.map (closeGenUpd r.todoist_task_id) := hg
      obtain ⟨g0, hg0, rfl⟩ := List.mem_map.mp hg'
      cases hid : (g0.todoist_task_id == r.todoist_task_id) with
      | true => simp [closeGenUpd, hid]
      | false =>
        have hgt' : g0.todoist_task_id = r.todoist_task_id := by
          simpa [closeGenUpd, hid] using hgt
        simp [hgt'] at hid
  · intro hlt
    have hB := acStep_notdue env now sA r task due dueTs hfetch hdue hparse hlt
    rw [hdecomp, hB]
    constructor
    · rw [foldl_obs_eq (autoCompleteStep env now)
        (fun s => findRule r.todoist_task_id s.rules) l2 _
        (fun s' a ha => acStep_findRule_ne env now s' a _ (hkeys.2 a ha))]
      exact hA_find
    · rw [foldl_obs_eq (autoCompleteStep env now)
        (fun s => closeCount r.todoist_task_id s.closeCalls) l2 _
        (fun s' a ha => acStep_closeCount_ne env now s' a _ (hkeys.2 a ha))]
      exact hA_count

/-! ## Concrete run states for witnesses -/

/-- A run state with given tables and empty bookkeeping, as at the start of
a command invocation. -/
def initState (rules : List AutoCompleteRule) (templates : List TaskTemplate)
    (generated : List GeneratedTask) : RunState :=
  { rules := rules, templates := templates, generated := generated,
    closeCalls := [], createCalls := [], completedCount := 0,
    generatedCount := 0, acAttempted := [], genAttempted := [],
    acErrors := [], genErrors := [], phases := [] }

/-- An overdue rule with a two-hour grace period. -/
def c1Rule : AutoCompleteRule :=
  { todoist_task_id := "10", task_content := "Pay rent",
    complete_after_hours := 2, is_active := true, created_by := "alice",
    completed_at := none }

/-- A generated-task row linked to the same remote task as `c1Rule`. -/
def c1Gen : GeneratedTask :=
  { template := 1, todoist_task_id := "10", task_content := "Pay rent",
    due_date := { year := 2024, month := 3, day := 15 }, is_completed := false }

/-- The remote task of `c1Rule`: due 2024-03-15, date-only form. -/
def c1Task : RemoteTask :=
  { due := some (DueString.dateOnly { year := 2024, month := 3, day := 15 }) }

/-- An API environment where task `10` exists and all calls succeed. -/
def c1Env : TodoistEnv :=
  { fetch := fun i => if i = "10" then .ok c1Task else .error "missing"
    close := fun _ => .ok ()
    create := fun _ => .ok "99" }

theorem auto_complete_scan_deadline_witness :
    findRule "10" (autoCompleteScan c1Env 1710468000
        (initState [c1Rule] [] [c1Gen])).rules
      = some { c1Rule with completed_at := some 1710468000, is_active := false } ∧
    closeCount "10" (autoCompleteScan c1Env 1710468000
        (initState [c1Rule] [] [c1Gen])).closeCalls = 1 ∧
    (autoCompleteScan c1Env 1710468000 (initState [c1Rule] [] [c1Gen])).generated
      = [{ c1Gen with is_completed := true }] := by
  have h := (auto_complete_scan_deadline c1Env 1710468000
    (initState [c1Rule] [] [c1Gen]) c1Rule c1Task
    (DueString.dateOnly { year := 2024, month := 3, day := 15 }) 1710460800
    (by decide) (by decide) rfl rfl rfl rfl rfl rfl).1 (by decide)
  exact ⟨h.1, h.2.1, by decide⟩

/-- Claim C2: per-item failure isolation in both scans.  For every API
environment — including one where any number of items raise — each scan's
loop body runs once for every item of its queryset (`acAttempted` /
`genAttempted` list exactly the queryset, in order), so an exception in one
iteration never prevents later items from being processed; and a fetch
failure for a rule is caught and logged to `acErrors`
(run_scheduled_tasks.py lines 59-102 and 117-211). -/
theorem scan_failure_isolation (env : TodoistEnv) (now : Int) (st : RunState) :
    (autoCompleteScan env now st).acAttempted
        = st.acAttempted ++ (activeRules st.rules).map (fun r => r.todoist_task_id) ∧
    (generateScan env now st).genAttempted
        = st.genAttempted
            ++ (st.templates.filter (fun tp => tp.is_active)).map (fun tp => tp.id) ∧
    ∀ r ∈ activeRules st.rules, ∀ e, env.fetch r.todoist_task_id = .error e →
      e ∈ (autoCompleteScan env now st).acErrors :=
  ⟨autoCompleteScan_acAttempted env now st, generateScan_genAttempted env now st,
   fun r hr e he => autoCompleteScan_error_logged env now st r e hr he⟩

/-- A rule whose fetch fails in `c2Env`. -/
def c2Rule1 : AutoCompleteRule :=
  { todoist_task_id := "1", task_content := "a", complete_after_hours := 0,
    is_active := true, created_by := "u", completed_at := none }

/-- A rule processed after the failing one. -/
def c2Rule2 : AutoCompleteRule :=
  { todoist_task_id := "2", task_content := "b", complete_after_hours := 0,
    is_active := true, created_by := "u", completed_at := none }

/-- An environment where fetching task `1` raises and everything else
succeeds. -/
def c2Env : TodoistEnv :=
  { fetch := fun i => if i = "1" then .error "boom" else .ok { due := none }
    close := fun _ => .ok ()
    create := fun _ => .ok "90" }

theorem scan_failure_isolation_witness :
    (autoCompleteScan c2Env 0 (initState [c2Rule1, c2Rule2] [] [])).acAttempted
        = ["1", "2"] ∧
    "boom" ∈ (autoCompleteScan c2Env 0 (initState [c2Rule1, c2Rule2] [] [])).acErrors := by
  have h := scan_failure_isolation c2Env 0 (initState [c2Rule1, c2Rule2] [] [])
  refine ⟨?_, ?_⟩
  · rw [h.1]
    decide
  · exact h.2.2 c2Rule1 (by decide) "boom" rfl

/-! ## Claim theorems: the generation scan -/

theorem cadenceOffset_pos (f : Frequency) : 0 < cadenceOffset f := by
  cases f <;> decide

/-- Claim C3: in the generation scan, an active template generates a task
iff `last_generated` is null or `now - last_generated` has reached the
fixed cadence offset (daily 1d, weekly 7d, biweekly 14d, monthly 30d,
yearly 365d, literal day counts); on success a `GeneratedTask` row is added
and `last_generated` becomes `now`, which is strictly later than any
previous value — it only advances forward
(run_scheduled_tasks.py lines 117-200). -/
theorem generation_cadence (env : TodoistEnv) (now : Int) (st : RunState)
    (tp : TaskTemplate) (content : String) (desc : Option String) (tid : String)
    (hmem : tp ∈ st.templates)
    (hnd : (st.templates.map (fun t => t.id)).Nodup)
    (hact : tp.is_active = true)
    (hr : renderTemplate tp.content_template (genDue now tp) = some content)
    (hdsc : renderDescription tp (genDue now tp) = some desc)
    (hcr : env.create (genBody now tp content desc) = .ok tid) :
    (shouldGenerate now tp = true ↔
      (tp.last_generated = none ∨
        ∃ lg, tp.last_generated = some lg ∧ cadenceOffset tp.frequency ≤ now - lg)) ∧
    (shouldGenerate now tp = true →
      findTemplate tp.id (generateScan env now st).templates
          = some { tp with last_generated := some now } ∧
      rowsFor tp.id (generateScan env now st).generated
          = rowsFor tp.id st.generated + 1 ∧
      ∀ lg, tp.last_generated = some lg → lg < now) ∧
    (shouldGenerate now tp = false →
      findTemplate tp.id (generateScan env now st).templates = some tp ∧
      rowsFor tp.id (generateScan env now st).generated
          = rowsFor tp.id st.generated) := by
  have hmemA : tp ∈ st.templates.filter (fun x => x.is_active) :=
    List.mem_filter.mpr ⟨hmem, by simp [hact]⟩
  have hndA : ((st.templates.filter (fun x => x.is_active)).map (fun t => t.id)).Nodup :=
    hnd.sublist ((List.filter_sublist st.templates).map (fun t => t.id))
  obtain ⟨l1, l2, hsplit⟩ := List.append_of_mem hmemA
  have hkeys := nodup_split_keys (fun x => x.id) l1 l2 tp (hsplit ▸ hndA)
  have hdecomp := generateScan_decomp env now st l1 l2 tp hsplit
  set sA := l1.foldl (generateStep env now)
    { st with phases := st.phases ++ [Phase.generate] } with hsA
  have hA_find : findTemplate tp.id sA.templates = some tp := by
    rw [hsA, foldl_obs_eq (generateStep env now)
      (fun s => findTemplate tp.id s.templates) l1 _
      (fun s' a ha => genStep_findTemplate_ne env now s' a _ (hkeys.1 a ha))]
    exact find?_nodup_mem (fun x => x.id) st.templates tp hmem hnd
  have hA_rows : rowsFor tp.id sA.generated = rowsFor tp.id st.generated := by
    rw [hsA, foldl_obs_eq (generateStep env now)
      (fun s => rowsFor tp.id s.generated) l1 _
      (fun s' a ha => genStep_rowsFor_ne env now s' a _ (hkeys.1 a ha))]
  refine ⟨?_, ?_, ?_⟩
  · cases h : tp.last_generated with
    | none => simp [shouldGenerate, h]
    | some lg => simp [shouldGenerate, h]
  · intro hs
    have hB := genStep_success env now sA tp content desc tid hs hr hdsc hcr
    rw [hdecomp, hB]
    refine ⟨?_, ?_, ?_⟩
    · rw [foldl_obs_eq (generateStep env now)
        (fun s => findTemplate tp.id s.templates) l2 _
        (fun s' a ha => genStep_findTemplate_ne env now s' a _ (hkeys.2 a ha))]
      show findTemplate tp.id (sA.templates.map (genTemplateUpd tp.id now)) = _
      unfold findTemplate
      rw [find?_map_comm (genTemplateUpd tp.id now) _
        (fun x => by rw [genTemplateUpd_id])]
      rw [show sA.templates.find? (fun x => x.id == tp.id) = some tp from hA_find]
      simp [genTemplateUpd]
    · rw [foldl_obs_eq (generateStep env now)
        (fun s => rowsFor tp.id s.generated) l2 _
        (fun s' a ha => genStep_rowsFor_ne env now s' a _ (hkeys.2 a ha))]
      show rowsFor tp.id (sA.generated ++ [_]) = _
      rw [rowsFor_append, hA_rows]
      simp [rowsFor]
    · intro lg hlg
      have hpos : 0 < cadenceOffset tp.frequency := cadenceOffset_pos tp.frequency
      have hle : cadenceOffset tp.frequency ≤ now - lg := by
        simpa [shouldGenerate, hlg] using hs
      omega
  · intro hs
    have hB := genStep_skip env now sA tp hs
    rw [hdecomp, hB]
    constructor
    · rw [foldl_obs_eq (generateStep env now)
        (fun s => findTemplate tp.id s.templates) l2 _
        (fun s' a ha => genStep_findTemplate_ne env now s' a _ (hkeys.2 a ha))]
      exact hA_find
    · rw [foldl_obs_eq (generateStep env now)
        (fun s => rowsFor tp.id s.generated) l2 _
        (fun s' a ha => genStep_rowsFor_ne env now s' a _ (hkeys.2 a ha))]
      exact hA_rows

/-- A daily template that has never generated. -/
def c3Tp : TaskTemplate :=
  { id := 1, name := "Report", content_template := "Report - {date}",
    description_template := "", project_id := "", frequency := Frequency.daily,
    priority := 1, labels := "", auto_complete := false, is_active := true,
    created_by := "alice", last_generated := none }

/-- An environment where task creation succeeds and returns id `77`. -/
def c3Env : TodoistEnv :=
  { fetch := fun _ => .error "unused"
    close := fun _ => .ok ()
    create := fun _ => .ok "77" }

theorem generation_cadence_witness :
    findTemplate 1 (generateScan c3Env 1710460800
        (initState [] [c3Tp] [])).templates
      = some { c3Tp with last_generated := some 1710460800 } ∧
    rowsFor 1 (generateScan c3Env 1710460800
        (initState [] [c3Tp] [])).generated = 1 := by
  have h := (generation_cadence c3Env 1710460800 (initState [] [c3Tp] [])
    c3Tp "Report - 2024-03-16" none "77"
    (by decide) (by decide) rfl (by decide) rfl rfl).2.1 rfl
  exact ⟨h.1, h.2.1⟩

/-! ## Claim theorems: terminality of completed auto-complete rules -/

/-- A rule that was already auto-completed (terminal). -/
def c4Rule : AutoCompleteRule :=
  { todoist_task_id := "42", task_content := "Pay rent",
    complete_after_hours := 0, is_active := false, created_by := "alice",
    completed_at := some 100 }

/-- Counterexample to claim C4 as stated: `autocomplete_create` on the task
id of a rule whose `completed_at` is already set reactivates it — the view
(views.py lines 261-275) looks the row up by `todoist_task_id` only and
unconditionally sets `is_active = True`, leaving a rule that is active with
`completed_at` set. -/
theorem autocomplete_create_reactivates_cex :
    c4Rule.completed_at = some 100 ∧ c4Rule.is_active = false ∧
    findRule "42" (autocomplete_create [c4Rule] "42" "Pay rent" 0 "bob")
      = some { c4Rule with is_active := true } ∧
    ({ c4Rule with is_active := true } : AutoCompleteRule).is_active = true ∧
    ({ c4Rule with is_active := true } : AutoCompleteRule).completed_at
      = some 100 := by
  decide

/-- Claim C4, amended: once `completed_at` is set a rule is never selected
or changed by the auto-complete scan, and rule creation during generation
only appends fresh rules with `completed_at` unset; `autocomplete_create`
on an existing task id, however, sets `is_active` back to `true` without
clearing `completed_at`, so a completed rule can be reactivated by that
view (run_scheduled_tasks.py lines 52-91 and 190-196, views.py
lines 254-280). -/
theorem auto_complete_rule_terminal_amended :
    (∀ (env : TodoistEnv) (now : Int) (st : RunState) (r : AutoCompleteRule)
        (c : Int), r ∈ st.rules → r.completed_at = some c →
      (st.rules.map (fun x => x.todoist_task_id)).Nodup →
      findRule r.todoist_task_id (autoCompleteScan env now st).rules = some r) ∧
    (∀ (env : TodoistEnv) (now : Int) (st : RunState),
      ∃ ext, (generateScan env now st).rules = st.rules ++ ext ∧
        ∀ x ∈ ext, x.completed_at = none) ∧
    (∀ (rules : List AutoCompleteRule) (r : AutoCompleteRule) (c : Int)
        (content : String) (hours : Int) (user : String),
      r ∈ rules → r.completed_at = some c →
      (rules.map (fun x => x.todoist_task_id)).Nodup →
      ∃ r', findRule r.todoist_task_id
          (autocomplete_create rules r.todoist_task_id content hours user)
          = some r' ∧ r'.is_active = true ∧ r'.completed_at = some c) := by
  refine ⟨?_, ?_, ?_⟩
  · intro env now st r c hmem hc hnd
    have hne : ∀ x ∈ activeRules st.rules, x.todoist_task_id ≠ r.todoist_task_id := by
      intro x hx hk
      have hx' := List.mem_filter.mp hx
      have hxr := nodup_key_inj (fun y => y.todoist_task_id) st.rules hnd hx'.1 hmem hk
      subst hxr
      rw [hc] at hx'
      simp at hx'
    simp only [autoCompleteScan]
    rw [foldl_obs_eq (autoCompleteStep env now)
      (fun s => findRule r.todoist_task_id s.rules) _ _
      (fun s' a ha => acStep_findRule_ne env now s' a _ (hne a ha))]
    exact find?_nodup_mem (fun x => x.todoist_task_id) st.rules r hmem hnd
  · intro env now st
    simp only [generateScan]
    refine foldl_pred (generateStep env now)
      (fun s => ∃ ext, s.rules = st.rules ++ ext ∧ ∀ x ∈ ext, x.completed_at = none)
      _ _ ?_ ⟨[], by simp, by simp⟩
    intro s' a _ hP
    obtain ⟨ext, hext, hnone⟩ := hP
    obtain ⟨ext2, hext2, hnone2⟩ := genStep_rules_ext env now s' a
    refine ⟨ext ++ ext2, ?_, ?_⟩
    · rw [hext2, hext, List.append_assoc]
    · intro x hx
      rcases List.mem_append.mp hx with hx1 | hx2
      · exact hnone x hx1
      · exact hnone2 x hx2
  · intro rules r c content hours user hmem hc hnd
    have hfind : rules.find? (fun x => x.todoist_task_id == r.todoist_task_id)
        = some r :=
      find?_nodup_mem (fun x => x.todoist_task_id) rules r hmem hnd
    refine ⟨{ r with is_active := true }, ?_, rfl, hc⟩
    simp only [autocomplete_create, hfind]
    unfold findRule
    rw [find?_map_comm _ _ (fun x => by
      by_cases h : x.todoist_task_id == r.todoist_task_id <;> simp [h])]
    rw [hfind]
    simp

theorem auto_complete_rule_terminal_amended_witness :
    findRule "42" (autoCompleteScan c1Env 0 (initState [c4Rule] [] [])).rules
      = some c4Rule ∧
    (∃ ext, (generateScan c1Env 0 (initState [c4Rule] [] [])).rules
      = [c4Rule] ++ ext ∧ ∀ x ∈ ext, x.completed_at = none) ∧
    (∃ r', findRule "42" (autocomplete_create [c4Rule] "42" "Pay rent" 0 "bob")
      = some r' ∧ r'.is_active = true ∧ r'.completed_at = some 100) := by
  have h := auto_complete_rule_terminal_amended
  refine ⟨h.1 c1Env 0 (initState [c4Rule] [] []) c4Rule 100 (by decide) rfl (by decide),
    h.2.1 c1Env 0 (initState [c4Rule] [] []), ?_⟩
  exact h.2.2 [c4Rule] c4Rule 100 "Pay rent" 0 "bob" (by decide) rfl (by decide)

/-! ## Claim theorems: template rendering -/

/-- Claim C5: template rendering is a pure function of the format string
and the computed due date (it is a total Lean function of exactly those two
arguments), substituting `date` as YYYY-MM-DD, `month` as the full month
name, `day` zero-padded and `year` as the 4-digit year; in particular
`"Report - \x7bdate\x7d"` with due date 2024-03-15 renders to
`"Report - 2024-03-15"` (run_scheduled_tasks.py lines 154-169, views.py
lines 185-198). -/
theorem template_rendering_pure :
    (∀ d, renderTemplate "Report - {date}" d = some ("Report - " ++ fmtYmd d)) ∧
    renderTemplate "Report - {date}" { year := 2024, month := 3, day := 15 }
      = some "Report - 2024-03-15" ∧
    (∀ d, renderTemplate "{date}" d = some (fmtYmd d)) ∧
    (∀ d, renderTemplate "{month}" d = some (monthName d.month)) ∧
    (∀ d, renderTemplate "{day}" d = some (pad2 d.day)) ∧
    (∀ d, renderTemplate "{year}" d = some (yearStr d.year)) := by
  refine ⟨?_, by decide, ?_, ?_, ?_, ?_⟩
  · intro d
    show (renderAux d RenderMode.lit "Report - {date}".data).map (fun l => String.mk l)
      = some ("Report - " ++ fmtYmd d)
    rw [show renderAux d RenderMode.lit "Report - {date}".data
      = some ("Report - ".data ++ ((fmtYmd d).data ++ [])) from rfl]
    simp only [Option.map_some, List.append_nil]
    rfl
  · intro d
    show (renderAux d RenderMode.lit "{date}".data).map (fun l => String.mk l)
      = some (fmtYmd d)
    rw [show renderAux d RenderMode.lit "{date}".data
      = some ((fmtYmd d).data ++ []) from rfl]
    simp only [Option.map_some, List.append_nil]
    rfl
  · intro d
    show (renderAux d RenderMode.lit "{month}".data).map (fun l => String.mk l)
      = some (monthName d.month)
    rw [show renderAux d RenderMode.lit "{month}".data
      = some ((monthName d.month).data ++ []) from rfl]
    simp only [Option.map_some, List.append_nil]
    rfl
  · intro d
    show (renderAux d RenderMode.lit "{day}".data).map (fun l => String.mk l)
      = some (pad2 d.day)
    rw [show renderAux d RenderMode.lit "{day}".data
      = some ((pad2 d.day).data ++ []) from rfl]
    simp only [Option.map_some, List.append_nil]
    rfl
  · intro d
    show (renderAux d RenderMode.lit "{year}".data).map (fun l => String.mk l)
      = some (yearStr d.year)
    rw [show renderAux d RenderMode.lit "{year}".data
      = some ((yearStr d.year).data ++ []) from rfl]
    simp only [Option.map_some, List.append_nil]
    rfl

/-! ## Claim theorems: notifications and watchers -/

/-- Claim C6: `mark_as_read` is idempotent — on an unread notification it
sets `is_read` and stamps `read_at` with the call time, and any number of
further calls (at any later times) leave the record unchanged at its
first-set value (models.py lines 221-226). -/
theorem mark_as_read_idempotent (n : Notification) (t1 : Int)
    (h : n.is_read = false) :
    (markAsRead t1 n).is_read = true ∧
    (markAsRead t1 n).read_at = some t1 ∧
    ∀ ts : List Int, ts.foldl (fun m t => markAsRead t m) (markAsRead t1 n)
      = markAsRead t1 n := by
  have h1 : markAsRead t1 n = { n with is_read := true, read_at := some t1 } := by
    simp [markAsRead, h]
  have hfix : ∀ t, markAsRead t (markAsRead t1 n) = markAsRead t1 n := by
    intro t
    rw [h1]
    simp [markAsRead]
  refine ⟨by rw [h1], by rw [h1], ?_⟩
  intro ts
  induction ts with
  | nil => rfl
  | cons a as ih => rw [List.foldl_cons, hfix a]; exact ih

/-- An unread notification. -/
def c6Notif : Notification :=
  { user := "bob", notification_type := "task_completed", title := "Done",
    message := "task done", todoist_task_id := "5", is_read := false,
    read_at := none }

theorem mark_as_read_idempotent_witness :
    (markAsRead 5 c6Notif).is_read = true ∧
    (markAsRead 5 c6Notif).read_at = some 5 ∧
    [7, 9].foldl (fun m t => markAsRead t m) (markAsRead 5 c6Notif)
      = markAsRead 5 c6Notif := by
  have h := mark_as_read_idempotent c6Notif 5 rfl
  exact ⟨h.1, h.2.1, h.2.2 [7, 9]⟩

/-- Claim C7: adding a watcher is keyed on the (task id, watcher) pair —
when the pair already exists `watcher_add` is a no-op (no second
`TaskWatcher` row, no second notification); when it is new, exactly one row
and exactly one `watcher_added` notification for the watcher are created
(views.py lines 285-324). -/
theorem watcher_add_dedup (ws : List TaskWatcher) (ns : List Notification)
    (tid content w adder : String) :
    (ws.any (fun x => x.todoist_task_id == tid && x.watcher == w) = true →
      watcher_add ws ns tid content w adder = (ws, ns)) ∧
    (ws.any (fun x => x.todoist_task_id == tid && x.watcher == w) = false →
      watcher_add ws ns tid content w adder
        = (ws ++ [{ todoist_task_id := tid, task_content := content,
                    watcher := w, added_by := adder, notify_on_update := true,
                    notify_on_complete := true, notify_on_overdue := true }],
           ns ++ [{ user := w, notification_type := "watcher_added",
                    title := "You were added as a watcher",
                    message := adder ++ " added you as a watcher to: " ++ content,
                    todoist_task_id := tid, is_read := false,
                    read_at := none }])) := by
  constructor <;> intro h <;> simp [watcher_add, h]

/-- An existing watcher row: carol watches task 7. -/
def c7W : TaskWatcher :=
  { todoist_task_id := "7", task_content := "Trash", watcher := "carol",
    added_by := "alice", notify_on_update := true, notify_on_complete := true,
    notify_on_overdue := true }

theorem watcher_add_dedup_witness :
    watcher_add [c7W] [] "7" "Trash" "carol" "dave" = ([c7W], []) := by
  exact (watcher_add_dedup [c7W] [] "7" "Trash" "carol" "dave").1 (by decide)

/-! ## Claim theorems: the client request body -/

/-- Claim C8: the body built by `create_task` always contains the content;
`description`, `project_id` and `labels` appear iff provided and non-empty
(and then carry the given value); when both a natural-language `due_string`
and an ISO `due_date` are given, only `due_string` is sent; and `priority`
is sent iff it is greater than 1 (todoist_client.py lines 100-146). -/
theorem create_task_fields (content : String)
    (description project_id due_string due_date : Option String)
    (priority : Nat) (labels : Option (List String)) (b : CreateTaskBody)
    (hb : b = create_task content description project_id due_string due_date
      priority labels) :
    b.content = content ∧
    (b.description ≠ none ↔ ∃ s, description = some s ∧ s ≠ "") ∧
    (∀ s, description = some s → s ≠ "" → b.description = some s) ∧
    (b.project_id ≠ none ↔ ∃ s, project_id = some s ∧ s ≠ "") ∧
    (b.labels ≠ none ↔ ∃ l, labels = some l ∧ l ≠ []) ∧
    (∀ s t, due_string = some s → s ≠ "" → due_date = some t →
      b.due_string = some s ∧ b.due_date = none) ∧
    (b.priority ≠ none ↔ 1 < priority) ∧
    (1 < priority → b.priority = some priority) := by
  subst hb
  refine ⟨rfl, ?_, ?_, ?_, ?_, ?_, ?_, ?_⟩
  · cases description with
    | none => simp [create_task, truthyStr]
    | some s =>
      by_cases hs : s = "" <;> simp [create_task, truthyStr, hs]
  · intro s hs hne
    subst hs
    simp [create_task, truthyStr, hne]
  · cases project_id with
    | none => simp [create_task, truthyStr]
    | some s =>
      by_cases hs : s = "" <;> simp [create_task, truthyStr, hs]
  · cases labels with
    | none => simp [create_task, truthyList]
    | some l =>
      cases l with
      | nil => simp [create_task, truthyList]
      | cons a as => simp [create_task, truthyList]
  · intro s t hs hne ht
    subst hs
    subst ht
    constructor <;> simp [create_task, truthyStr, hne]
  · by_cases hp : 1 < priority <;> simp [create_task, hp]
  · intro hp
    simp [create_task, hp]

theorem create_task_fields_witness :
    (create_task "Buy milk" (some "errand") none (some "tomorrow")
        (some "2024-03-15") 3 (some ["home"])).content = "Buy milk" ∧
    (create_task "Buy milk" (some "errand") none (some "tomorrow")
        (some "2024-03-15") 3 (some ["home"])).due_string = some "tomorrow" ∧
    (create_task "Buy milk" (some "errand") none (some "tomorrow")
        (some "2024-03-15") 3 (some ["home"])).due_date = none ∧
    (create_task "Buy milk" (some "errand") none (some "tomorrow")
        (some "2024-03-15") 3 (some ["home"])).priority = some 3 := by
  obtain ⟨h1, h2, h3, h4, h5, h6, h7, h8⟩ := create_task_fields "Buy milk"
    (some "errand") none (some "tomorrow") (some "2024-03-15") 3 (some ["home"])
    (create_task "Buy milk" (some "errand") none (some "tomorrow")
      (some "2024-03-15") 3 (some ["home"])) rfl
  obtain ⟨hds, hdd⟩ := h6 "tomorrow" "2024-03-15" rfl (by decide) rfl
  exact ⟨h1, hds, hdd, h8 (by decide)⟩

end Chtodoist
